import Mathlib

/-
  Verification development for the coursewell lesson app (src/app.py).

  The dialogue engine, script compiler and auxiliary routes are shallowly
  embedded as pure Lean functions.  Python dicts holding lesson steps are
  modelled as a record with optional fields (a missing key is `none`, the
  counterpart of dict.get returning None); the text-generation oracle is a
  function parameter `tutor : String → String` standing for the value
  returned by get_tutor_response; an unhandled Python exception (IndexError
  on list indexing) is modelled by an `Option`/`Except` failure.
-/

/-- The apostrophe character, kept out of string literals. -/
def apos : String := String.singleton (Char.ofNat 39)

/-- The double-quote character, used by the RETRIEVE_IMAGE tag parsing. -/
def quoteS : String := String.singleton (Char.ofNat 34)

/-- Matching of a candidate needle against the head of a character list. -/
def leadMatch : List Char → List Char → Bool
  | [], _ => true
  | _ :: _, [] => false
  | c :: cs, d :: ds => c == d && leadMatch cs ds

/-- Substring search on character lists, the semantics of the Python
`in` operator on strings. -/
def subMatch (needle : List Char) : List Char → Bool
  | [] => needle.isEmpty
  | c :: t => leadMatch needle (c :: t) || subMatch needle t

/-- Python `needle in hay` for strings. -/
def subStr (needle hay : String) : Bool := subMatch needle.toList hay.toList

/-- The characters Python str.strip removes. -/
def isSpaceChar (c : Char) : Bool :=
  c == ' ' || c == '\t' || c == '\n' || c == '\r' || c == '\x0b' || c == '\x0c'

/-- Drop leading whitespace from a character list. -/
def dropLeadSpace : List Char → List Char
  | [] => []
  | c :: t => if isSpaceChar c then dropLeadSpace t else c :: t

/-- Python str.strip(): remove leading and trailing whitespace. -/
def pyTrim (s : String) : String :=
  String.mk (dropLeadSpace ((dropLeadSpace s.data.reverse).reverse))

/-- Python str.upper() (ASCII case mapping suffices for this code). -/
def strUpper (s : String) : String := String.mk (s.data.map Char.toUpper)

/-- Python str.startswith(). -/
def pyStartsWith (s pre : String) : Bool := leadMatch pre.data s.data

/-- Splitting worker: structurally recursive on a fuel bound (at least the
list length), so the separator (assumed non-empty) can be consumed. -/
def pySplitAux (sep : List Char) : Nat → List Char → List Char → List (List Char)
  | _, [], acc => [acc.reverse]
  | 0, l, acc => [acc.reverse ++ l]
  | fuel + 1, c :: t, acc =>
    if leadMatch sep (c :: t) then
      acc.reverse :: pySplitAux sep fuel (List.drop (sep.length - 1) t) []
    else pySplitAux sep fuel t (c :: acc)

/-- Python s.split(sep) for a non-empty separator. -/
def pySplit (sep : String) (s : String) : List String :=
  (pySplitAux sep.data (s.data.length + 1) s.data []).map String.mk

/-- Python sep.join(parts). -/
def joinWith (sep : String) : List String → String
  | [] => ""
  | [x] => x
  | x :: y :: t => x ++ sep ++ joinWith sep (y :: t)

/-- Python s.replace(old, new) for a non-empty pattern. -/
def pyReplace (s old new : String) : String := joinWith new (pySplit old s)

/-- Python truthiness of an optional string (None and the empty string are
falsy). -/
def truthy : Option String → Bool
  | some s => !s.isEmpty
  | none => false

/-- Python str() formatting applied to an optional string (None prints as
"None", as happens when user_input is absent and is interpolated). -/
def optFmt : Option String → String
  | some s => s
  | none => "None"

/-- One lesson step, the record form of the step dicts stored in
Lesson.parsed_json.  A missing dict key is `none`. -/
structure Step where
  type : Option String := none
  text : Option String := none
  alt_text : Option String := none
  media_url : Option String := none
  question : Option String := none
  options : List (String × String) := []
  correct_answer : Option String := none
  keywords : List String := []
deriving DecidableEq, Repr

/-- The JSON payload assembled in response_data by the /chat route.
next_step is the value persisted into ChatHistory.current_step_index. -/
structure ChatResponse where
  feedback : Option String := none
  tutor_text : Option String := none
  media_url : Option String := none
  question : Option Step := none
  next_step : Nat := 0
  is_lesson_end : Bool := false
  is_qna_response : Bool := false
deriving DecidableEq, Repr

/-- TUTOR_PROMPT_TEMPLATE["CONTENT"] instantiated. -/
def contentFmt (t : String) : String :=
  "Your role is to rephrase the following text from a lesson plan into a natural, conversational format for a student. Stick ONLY to the information in the text. End the turn naturally. Here is the text: --- " ++ t ++ " ---"

/-- TUTOR_PROMPT_TEMPLATE["MEDIA"] instantiated. -/
def mediaFmt (alt : String) : String :=
  "An image with the description " ++ apos ++ alt ++ apos ++ " has just been shown. Briefly call the student" ++ apos ++ "s attention to it and transition to the next piece of information."

/-- TUTOR_PROMPT_TEMPLATE["RETRY"] instantiated. -/
def retryFmt (t : String) : String :=
  "You are a Socratic tutor. The student answered incorrectly. The lesson text with the answer is: --- " ++ t ++ " ---. Based ONLY on this text, provide a short, simple hint or a leading question to help them. Do not invent new analogies."

/-- TUTOR_PROMPT_TEMPLATE["FEEDBACK_AND_PROCEED"] instantiated. -/
def feedbackProceedFmt (t : String) : String :=
  "The student just answered a question correctly. Your response should start with a positive confirmation (like " ++ apos ++ "Exactly!" ++ apos ++ " or " ++ apos ++ "Great job!" ++ apos ++ ") and then seamlessly transition into teaching the following new concept. Here is the new concept: --- " ++ t ++ " ---"

/-- TUTOR_PROMPT_TEMPLATE["QUESTION"] instantiated. -/
def questionFmt (q : String) : String :=
  "Okay, time for a quick question to check your understanding: " ++ q

/-- GRADER_PROMPT instantiated with the joined keywords and the answer. -/
def graderFmt (kw ans : String) : String :=
  "\nYou are an impartial grading assistant. Your task is to determine if a student" ++ apos ++ "s answer contains a set of key concepts. Your response MUST be a single word: " ++ quoteS ++ "CORRECT" ++ quoteS ++ " or " ++ quoteS ++ "INCORRECT" ++ quoteS ++ ".\nRequired Keywords: " ++ kw ++ "\nStudent" ++ apos ++ "s Answer: " ++ ans ++ "\n"

/-- TUTOR_PROMPT_TEMPLATE["QNA"] instantiated with the lesson script and
the learner question. -/
def qnaFmt (script q : String) : String :=
  "\nYou are an intelligent teaching assistant. A student has a question.\nYour knowledge is strictly limited to the following " ++ quoteS ++ "Full Lesson Script" ++ quoteS ++ ".\nThe script contains text and image tags like [IMAGE: alt=" ++ quoteS ++ "description" ++ quoteS ++ "].\n\nYour Task:\n1. Read the student" ++ apos ++ "s question.\n2. Analyze the " ++ quoteS ++ "Full Lesson Script" ++ quoteS ++ " to find the answer.\n3. **If the student is asking to see an image mentioned in the script (e.g., " ++ quoteS ++ "show me the capybara" ++ quoteS ++ ", " ++ quoteS ++ "can I see the image?" ++ quoteS ++ "), your response MUST be ONLY the following machine-readable tag: `[RETRIEVE_IMAGE: " ++ quoteS ++ "description" ++ quoteS ++ "]`, where " ++ quoteS ++ "description" ++ quoteS ++ " is the exact alt text from the corresponding [IMAGE] tag in the script.**\n4. For any other question, answer it normally based on the script" ++ apos ++ "s text content. If you cannot answer, say so politely.\n\n---\nFull Lesson Script:\n" ++ script ++ "\n---\nStudent" ++ apos ++ "s Question: " ++ q ++ "\n"

/-- Fixed completion message of the terminal branch. -/
def congratsMsg : String := "Congratulations! You have completed this chapter."

/-- Fixed positive feedback emitted on a correct answer. -/
def correctMsg : String := "Correct! Great job."

/-- Fallback grounding text when no prior CONTENT text exists. -/
def reviewFallback : String := "Let" ++ apos ++ "s review."

/-- Fallback of get_tutor_response when the oracle call raises. -/
def oracleFailMsg : String := "I seem to be having a little trouble thinking. Could you try again?"

/-- Fallback of get_tutor_response when the oracle returns empty text. -/
def emptyOracleMsg : String := "Let" ++ apos ++ "s try that another way."

/-- QNA message when the retrieved image is found. -/
def retrieveOkMsg (alt : String) : String :=
  "Of course, here is the image of " ++ apos ++ alt ++ apos ++ ":"

/-- QNA message when the mentioned image has no stored URL. -/
def apologyMsg : String :=
  "I found a mention of that image, but I couldn" ++ apos ++ "t retrieve the picture. Sorry about that."

/-- QNA message when the RETRIEVE_IMAGE tag has no quoted segment. -/
def troubleMsg : String :=
  "I had a little trouble retrieving that image. Please try asking in a different way."

/-- The machine-readable image-retrieval tag. -/
def retrieveTag : String := "[RETRIEVE_IMAGE:"

/-- get_tutor_response: wraps an oracle outcome (none models a raised
exception, some t the returned text, possibly empty). -/
def get_tutor_response (oracle : Option String) : String :=
  match oracle with
  | none => oracleFailMsg
  | some t => if t.isEmpty then emptyOracleMsg else t

/-- MCQ grading from the /chat route: the answer, trimmed and upper-cased,
must equal the trimmed, upper-cased correct_answer; a missing or empty
answer is incorrect. -/
def gradeMCQ (ui : Option String) (prev : Step) : Bool :=
  match ui with
  | some s =>
    !s.isEmpty && (strUpper (pyTrim s) == strUpper (pyTrim (prev.correct_answer.getD "")))
  | none => false

/-- Short-answer grading from the /chat route: the oracle reply to the
grader prompt, upper-cased, must contain "CORRECT" as a substring. -/
def gradeSAcall (tutor : String → String) (prev : Step) (ui : Option String) : Bool :=
  subStr "CORRECT" (strUpper (tutor (graderFmt (joinWith ", " prev.keywords) (optFmt ui))))

/-- Combined answer grading for a previously presented question step. -/
def isCorrectAnswer (tutor : String → String) (ui : Option String) (prev : Step) : Bool :=
  if prev.type = some "QUESTION_MCQ" then gradeMCQ ui prev
  else if prev.type = some "QUESTION_SA" then gradeSAcall tutor prev ui
  else false

/-- relevant_content of the retry branch: the joined text of all CONTENT
steps strictly before the question step, or a fixed review fallback. -/
def relevantContent (steps : List Step) (idx : Nat) : String :=
  let texts := ((steps.take (idx - 1)).filter (fun s => s.type == some "CONTENT")).map
    (fun s => s.text.getD "")
  let joined := joinWith "\n" texts
  if joined.isEmpty then reviewFallback else joined

/-- The centralized response assembly: model_response_text is copied into
tutor_text only when truthy (Python `if model_response_text:`). -/
def finalize (r : ChatResponse) (mtext : Option String) : ChatResponse :=
  match mtext with
  | some s => if s.isEmpty then r else { r with tutor_text := some s }
  | none => r

/-- Step 2 and 3 of the LESSON_FLOW branch: process the current step and
default next_step to step_index + 1. -/
def proceed (steps : List Step) (idx : Nat) (tutor : String → String)
    (feedback : Option String) : Option ChatResponse :=
  if steps.length ≤ idx then
    some (finalize { feedback := feedback, is_lesson_end := true, next_step := idx + 1 }
      (some congratsMsg))
  else
    match steps[idx]? with
    | none => none
    | some current =>
      if current.type = some "CONTENT" then
        some (finalize { feedback := feedback, next_step := idx + 1 }
          (some (tutor ((if truthy feedback then feedbackProceedFmt else contentFmt)
            (current.text.getD "")))))
      else if current.type = some "MEDIA" then
        if truthy current.media_url = false then
          some (finalize { feedback := feedback, next_step := idx + 1 } none)
        else
          some (finalize
            { feedback := feedback, media_url := current.media_url, next_step := idx + 1 }
            (some (tutor (mediaFmt (current.alt_text.getD "")))))
      else if current.type = some "QUESTION_MCQ" ∨ current.type = some "QUESTION_SA" then
        some (finalize { feedback := feedback, question := some current, next_step := idx + 1 }
          (some (tutor (questionFmt (current.question.getD "a question")))))
      else
        some (finalize { feedback := feedback, next_step := idx + 1 } none)

/-- The LESSON_FLOW branch of the /chat route.  `none` models an unhandled
IndexError (HTTP 500) from indexing steps[step_index - 1]. -/
def lessonFlow (steps : List Step) (idx : Nat) (ui : Option String)
    (tutor : String → String) : Option ChatResponse :=
  if 0 < idx then
    match steps[idx - 1]? with
    | none => none
    | some prev =>
      if prev.type = some "QUESTION_MCQ" ∨ prev.type = some "QUESTION_SA" then
        if isCorrectAnswer tutor ui prev then
          proceed steps idx tutor (some correctMsg)
        else
          some
            { feedback := none,
              tutor_text := some (tutor (retryFmt (relevantContent steps idx))),
              media_url := none, question := none, next_step := idx - 1,
              is_lesson_end := false, is_qna_response := false }
      else proceed steps idx tutor none
  else proceed steps idx tutor none

/-- The oracle reply of the QNA branch. -/
def qnaAi (raw_script : String) (ui : Option String) (tutor : String → String) : String :=
  tutor (qnaFmt raw_script (optFmt ui))

/-- The response_data skeleton every QNA branch shares: is_qna_response
is set and next_step is the incoming step index. -/
def qnaBase (idx : Nat) : ChatResponse := { is_qna_response := true, next_step := idx }

/-- The QNA branch of the /chat route; it always persists next_step equal
to the incoming step_index. -/
def qnaFlow (steps : List Step) (raw_script : String) (idx : Nat) (ui : Option String)
    (tutor : String → String) : ChatResponse :=
  if pyStartsWith (pyTrim (qnaAi raw_script ui tutor)) retrieveTag then
    match (pySplit quoteS (qnaAi raw_script ui tutor))[1]? with
    | none => finalize (qnaBase idx) (some troubleMsg)
    | some alt =>
      match (steps.find? (fun s => s.type == some "MEDIA" && s.alt_text == some alt)).bind
          Step.media_url with
      | some u =>
        if u.isEmpty then finalize (qnaBase idx) (some apologyMsg)
        else finalize { qnaBase idx with media_url := some u } (some (retrieveOkMsg alt))
      | none => finalize (qnaBase idx) (some apologyMsg)
  else finalize (qnaBase idx) (some (qnaAi raw_script ui tutor))

/-- The authorization check of the /chat route: only the existence of an
Enrollment row is consulted (app.py lines 458-460); the course-creator
flag is never read on this route. -/
def chatAuthPasses (enrolled _creator : Bool) : Bool := enrolled

/-- The /chat route: authorization, then dispatch on request_type.
The error codes are the HTTP statuses 403 (abort) and 500 (unhandled
exception). -/
def chat (enrolled creator : Bool) (steps : List Step) (raw_script : String) (idx : Nat)
    (ui : Option String) (request_type : String) (tutor : String → String) :
    Except Nat ChatResponse :=
  if chatAuthPasses enrolled creator = false then .error 403
  else if request_type = "QNA" then .ok (qnaFlow steps raw_script idx ui tutor)
  else match lessonFlow steps idx ui tutor with
    | some r => .ok r
    | none => .error 500

/-- JSON values, the shape of json.loads output and of Lesson.parsed_json. -/
inductive Json where
  | null : Json
  | bool : Bool → Json
  | num : Int → Json
  | str : String → Json
  | arr : List Json → Json
  | obj : List (String × Json) → Json

/-- Python dict lookup (dict.get, returning None when absent). -/
def objGet (f : List (String × Json)) (k : String) : Option Json :=
  (f.find? (fun p => p.fst == k)).map Prod.snd

/-- Python dict assignment: replace the value in place, or append a new
key in insertion order. -/
def setKey (f : List (String × Json)) (k : String) (v : Json) : List (String × Json) :=
  if (f.find? (fun p => p.fst == k)).isSome then
    f.map (fun p => if p.fst == k then (k, v) else p)
  else f ++ [(k, v)]

/-- Python str() of a JSON value, used by the keyword coercion.  The
container cases approximate the Python repr; no claim depends on them. -/
def pyStr : Json → String
  | .str s => s
  | .num n => toString n
  | .bool true => "True"
  | .bool false => "False"
  | .null => "None"
  | .arr _ => "[...]"
  | .obj _ => "\x7b...\x7d"

/-- Python kw.split(",") followed by str.strip on each piece. -/
def pySplitComma (s : String) : List String := (pySplit "," s).map pyTrim

/-- The keyword normalization applied to each parsed step.  `none` models
an exception raised inside the loop (step.get on a non-dict element, or a
non-iterable keywords value), which parse_lesson_script turns into None. -/
def normStep (j : Json) : Option Json :=
  match j with
  | .obj f =>
    match objGet f "type", objGet f "keywords" with
    | some (.str "QUESTION_SA"), some (.str s) =>
        some (.obj (setKey f "keywords" (.arr ((pySplitComma s).map Json.str))))
    | some (.str "QUESTION_SA"), some (.arr xs) =>
        some (.obj (setKey f "keywords" (.arr (xs.map (fun x => Json.str (pyStr x))))))
    | some (.str "QUESTION_SA"), some (.obj g) =>
        some (.obj (setKey f "keywords" (.arr (g.map (fun p => Json.str p.fst)))))
    | some (.str "QUESTION_SA"), some _ => none
    | _, _ => some j
  | _ => none

/-- The code-fence cleanup applied to the oracle output before json.loads. -/
def cleanOracle (t : String) : String :=
  pyTrim (pyReplace (pyReplace (pyTrim t) "```json" "") "```" "")

/-- parse_lesson_script.  `decode` models json.loads (none is a decode
exception); `oracleOut` models the oracle call (none is a raised
exception, whose handler returns None).  The result is None unless the
decoded value is a dict containing a "steps" key and the keyword
normalization loop does not raise.  A non-list "steps" value raises while
being iterated unless it is empty. -/
def parseLessonScript (decode : String → Option Json) (oracleOut : Option String) :
    Option Json :=
  match oracleOut with
  | none => none
  | some t =>
    match decode (cleanOracle t) with
    | none => none
    | some j =>
      match j with
      | .obj f =>
        match (objGet f "steps").getD (.arr []) with
        | .arr xs =>
          match xs.mapM normStep with
          | none => none
          | some xs2 =>
            if (objGet f "steps").isSome then some (.obj (setKey f "steps" (.arr xs2)))
            else none
        | .str s => if s.isEmpty then some j else none
        | .obj g => if g.isEmpty then some j else none
        | _ => none
      | _ => none

/-- Whether a step dict is a MEDIA step (step.get("type") == "MEDIA"). -/
def jIsMedia : Json → Bool
  | .obj f =>
    match objGet f "type" with
    | some (.str "MEDIA") => true
    | _ => false
  | _ => false

/-- step["media_url"] = u on a step dict.  Non-dict steps would raise in
Python; parse_lesson_script guarantees dict steps, so that branch is
inert and modelled as the identity. -/
def setMediaUrlJ : Json → String → Json
  | .obj f, u => .obj (setKey f "media_url" (.str u))
  | j, _ => j

/-- The media-hydration loop of save_chapter/update_chapter: one iterator
over the combined uploaded-file URL list, assigned to MEDIA steps in step
order; on StopIteration the loop breaks, leaving later steps untouched. -/
def hydrateStepsJ : List Json → List String → List Json
  | [], _ => []
  | s :: rest, urls =>
    if jIsMedia s then
      match urls with
      | [] => s :: rest
      | u :: us => setMediaUrlJ s u :: hydrateStepsJ rest us
    else s :: hydrateStepsJ rest urls

/-- Hydration applied to the whole parsed object (the loop runs over
parsed_data.get("steps", [])). -/
def hydrateParsed (j : Json) (urls : List String) : Json :=
  match j with
  | .obj f =>
    match objGet f "steps" with
    | some (.arr xs) => .obj (setKey f "steps" (.arr (hydrateStepsJ xs urls)))
    | _ => j
  | _ => j

/-- The stored columns of a Lesson row that the chapter routes touch. -/
structure LessonRec where
  title : String
  raw_script : String
  parsed_json : Json
  chapter_number : Nat

/-- chapter_number assigned to a new chapter: highest existing number plus
one, or 1 for the first chapter. -/
def nextChapterNumber (lessons : List LessonRec) : Nat :=
  (lessons.foldl (fun a l => max a l.chapter_number) 0) + 1

/-- update_chapter: parse the submitted script, and on success commit the
new title, script and hydrated parse.  On a parse failure the route
redirects without committing, so the stored row is unchanged (the
uncommitted ORM mutations are discarded at session teardown); the Bool
reports success versus the compile-error flash. -/
def update_chapter (stored : LessonRec) (newTitle newScript : String)
    (uploads : List String) (decode : String → Option Json) (oracleOut : Option String) :
    LessonRec × Bool :=
  match parseLessonScript decode oracleOut with
  | none => (stored, false)
  | some parsed =>
    ({ title := newTitle, raw_script := newScript,
       parsed_json := hydrateParsed parsed uploads,
       chapter_number := stored.chapter_number }, true)

/-- save_chapter: validate the form, parse, and on success append a new
lesson row; any failure leaves the lesson list unchanged. -/
def save_chapter (lessons : List LessonRec) (title script : String)
    (uploads : List String) (decode : String → Option Json) (oracleOut : Option String) :
    List LessonRec × Bool :=
  if title.isEmpty ∨ script.isEmpty then (lessons, false)
  else
    match parseLessonScript decode oracleOut with
    | none => (lessons, false)
    | some parsed =>
      (lessons ++ [{ title := title, raw_script := script,
                     parsed_json := hydrateParsed parsed uploads,
                     chapter_number := nextChapterNumber lessons }], true)

/-- One chat-history entry ({'role': r, 'parts': [{'text': t}]}). -/
structure Msg where
  role : String
  text : String
deriving DecidableEq, Repr

/-- The index of the last entry whose role is "user". -/
def lastUserIdx : List Msg → Option Nat
  | [] => none
  | m :: rest =>
    match lastUserIdx rest with
    | some i => some (i + 1)
    | none => if m.role == "user" then some 0 else none

/-- The truncation performed by delete_last_turn: everything before the
last user message, or nothing when no user message exists. -/
def truncHist (history : List Msg) : List Msg :=
  match lastUserIdx history with
  | some i => history.take i
  | none => []

/-- The /chat/delete_last_turn route on an existing history record:
truncate the stored history before the last user message (clearing it
when none exists); `none` models the 400 response on an already empty
history.  The route never assigns current_step_index, so the cursor is
returned unchanged. -/
def delete_last_turn (history : List Msg) (idx : Nat) : Option (List Msg × Nat) :=
  if history.isEmpty then none
  else some (truncHist history, idx)

/-- Modelled from the spec: paragraph chunks of a CONTENT step, split on
blank-line boundaries with empty paragraphs discarded.  No such splitting
exists anywhere in src/app.py; this definition only states claims that
mention paragraph counts. -/
def specParagraphs (t : String) : List String :=
  ((pySplit "\n\n" t).map pyTrim).filter (fun p => !p.isEmpty)

/-- Whether a step dict is a MEDIA step of the given media_type.  Used
only by the spec-side hydration below. -/
def jIsMediaOfType (j : Json) (ty : String) : Bool :=
  jIsMedia j &&
    (match j with
     | .obj f =>
       match objGet f "media_type" with
       | some (.str t) => t == ty
       | _ => false
     | _ => false)

/-- The spec's media hydration, stated in the spec's words for comparison
with the code's hydrateStepsJ: uploads are assigned positionally and
separately per media type, and a MEDIA step with no remaining upload of
its type is left with a null media_url. -/
def hydrateStepsSpec : List Json → List String → List String → List Json
  | [], _, _ => []
  | s :: rest, imgs, auds =>
    if jIsMediaOfType s "image" then
      match imgs with
      | [] => (match s with | .obj f => .obj (setKey f "media_url" .null) | j => j)
          :: hydrateStepsSpec rest [] auds
      | u :: us => setMediaUrlJ s u :: hydrateStepsSpec rest us auds
    else if jIsMediaOfType s "audio" then
      match auds with
      | [] => (match s with | .obj f => .obj (setKey f "media_url" .null) | j => j)
          :: hydrateStepsSpec rest imgs []
      | u :: us => setMediaUrlJ s u :: hydrateStepsSpec rest imgs us
    else s :: hydrateStepsSpec rest imgs auds

/-- The media_url value stored on a step dict, used to observe hydration
results. -/
def urlOfStep (j : Json) : Option Json :=
  match j with
  | .obj f => objGet f "media_url"
  | _ => none

/-- Whether a decoded value is a JSON object containing a "steps" key,
the shape parse_lesson_script validates. -/
def jIsObjWithSteps : Json → Bool
  | .obj f => (objGet f "steps").isSome
  | _ => false


theorem finalize_feedback (r : ChatResponse) (m : Option String) :
    (finalize r m).feedback = r.feedback := by
  cases m with
  | none => rfl
  | some s =>
    simp only [finalize]
    split <;> rfl

theorem finalize_next_step (r : ChatResponse) (m : Option String) :
    (finalize r m).next_step = r.next_step := by
  cases m with
  | none => rfl
  | some s =>
    simp only [finalize]
    split <;> rfl

theorem finalize_media_url (r : ChatResponse) (m : Option String) :
    (finalize r m).media_url = r.media_url := by
  cases m with
  | none => rfl
  | some s =>
    simp only [finalize]
    split <;> rfl

theorem finalize_is_qna (r : ChatResponse) (m : Option String) :
    (finalize r m).is_qna_response = r.is_qna_response := by
  cases m with
  | none => rfl
  | some s =>
    simp only [finalize]
    split <;> rfl

theorem proceed_terminal (steps : List Step) (idx : Nat) (tutor : String → String)
    (fb : Option String) (h : steps.length ≤ idx) :
    proceed steps idx tutor fb =
      some (finalize { feedback := fb, is_lesson_end := true, next_step := idx + 1 }
        (some congratsMsg)) := by
  unfold proceed
  rw [if_pos h]

theorem proceed_eq (steps : List Step) (idx : Nat) (tutor : String → String)
    (fb : Option String) (cur : Step) (hlt : idx < steps.length)
    (h : steps[idx]? = some cur) :
    proceed steps idx tutor fb =
      (if cur.type = some "CONTENT" then
        some (finalize { feedback := fb, next_step := idx + 1 }
          (some (tutor ((if truthy fb then feedbackProceedFmt else contentFmt)
            (cur.text.getD "")))))
      else if cur.type = some "MEDIA" then
        if truthy cur.media_url = false then
          some (finalize { feedback := fb, next_step := idx + 1 } none)
        else
          some (finalize
            { feedback := fb, media_url := cur.media_url, next_step := idx + 1 }
            (some (tutor (mediaFmt (cur.alt_text.getD "")))))
      else if cur.type = some "QUESTION_MCQ" ∨ cur.type = some "QUESTION_SA" then
        some (finalize { feedback := fb, question := some cur, next_step := idx + 1 }
          (some (tutor (questionFmt (cur.question.getD "a question")))))
      else some (finalize { feedback := fb, next_step := idx + 1 } none)) := by
  unfold proceed
  rw [if_neg (Nat.not_le_of_lt hlt), h]

theorem lessonFlow_zero (steps : List Step) (ui : Option String) (tutor : String → String) :
    lessonFlow steps 0 ui tutor = proceed steps 0 tutor none := by
  unfold lessonFlow
  rw [if_neg (by omega)]

theorem lessonFlow_pos (steps : List Step) (idx : Nat) (ui : Option String)
    (tutor : String → String) (prev : Step) (hpos : 0 < idx)
    (hp : steps[idx - 1]? = some prev) :
    lessonFlow steps idx ui tutor =
      (if prev.type = some "QUESTION_MCQ" ∨ prev.type = some "QUESTION_SA" then
        if isCorrectAnswer tutor ui prev then proceed steps idx tutor (some correctMsg)
        else
          some
            { feedback := none,
              tutor_text := some (tutor (retryFmt (relevantContent steps idx))),
              media_url := none, question := none, next_step := idx - 1,
              is_lesson_end := false, is_qna_response := false }
      else proceed steps idx tutor none) := by
  unfold lessonFlow
  rw [if_pos hpos, hp]

theorem proceed_fields (steps : List Step) (idx : Nat) (tutor : String → String)
    (fb : Option String) :
    ∃ r, proceed steps idx tutor fb = some r ∧ r.next_step = idx + 1 ∧ r.feedback = fb := by
  by_cases h : steps.length ≤ idx
  · rw [proceed_terminal steps idx tutor fb h]
    exact ⟨_, rfl, by rw [finalize_next_step], by rw [finalize_feedback]⟩
  · have hlt := Nat.lt_of_not_le h
    obtain ⟨cur, hcur⟩ : ∃ c, steps[idx]? = some c := ⟨_, List.getElem?_eq_getElem hlt⟩
    rw [proceed_eq steps idx tutor fb cur hlt hcur]
    repeat' split
    all_goals exact ⟨_, rfl, by rw [finalize_next_step], by rw [finalize_feedback]⟩

/-- C4 (amended): at the terminal cursor position (step_index equal to the
step count, with the preceding step not a question step) a lesson-flow
turn emits the completion message but increments the persisted cursor to
step_index + 1; and once step_index exceeds the step count, the turn
raises (HTTP 500) instead of re-emitting the completion message, because
steps[step_index - 1] is out of range. -/
theorem c4_thm (steps : List Step) (idx : Nat) (ui : Option String)
    (tutor : String → String) :
    (idx = steps.length →
      (∀ prev, steps[idx - 1]? = some prev →
        prev.type ≠ some "QUESTION_MCQ" ∧ prev.type ≠ some "QUESTION_SA") →
      lessonFlow steps idx ui tutor =
        some { feedback := none, tutor_text := some congratsMsg, media_url := none,
               question := none, next_step := idx + 1, is_lesson_end := true,
               is_qna_response := false }) ∧
    (steps.length < idx → lessonFlow steps idx ui tutor = none) := by
  constructor
  · intro hterm hq
    have hterm2 : steps.length ≤ idx := le_of_eq hterm.symm
    have hproc : proceed steps idx tutor none =
        some { feedback := none, tutor_text := some congratsMsg, media_url := none,
               question := none, next_step := idx + 1, is_lesson_end := true,
               is_qna_response := false } := by
      rw [proceed_terminal steps idx tutor none hterm2]
      rfl
    cases Nat.eq_zero_or_pos idx with
    | inl h0 =>
      subst h0
      rw [lessonFlow_zero]
      exact hproc
    | inr hpos =>
      obtain ⟨prev, hp⟩ : ∃ p, steps[idx - 1]? = some p :=
        ⟨_, List.getElem?_eq_getElem (by omega)⟩
      rw [lessonFlow_pos steps idx ui tutor prev hpos hp,
        if_neg (not_or.mpr (hq prev hp))]
      exact hproc
  · intro hgt
    unfold lessonFlow
    rw [if_pos (by omega), List.getElem?_eq_none (by omega)]

/-- C4 counterexample: the claim "once the terminal state is reached,
every further lesson-flow turn leaves the cursor unchanged" is false: on
an empty step list with cursor 0 (terminal), the turn persists cursor 1. -/
theorem c4_cex :
    ¬ (∀ (steps : List Step) (idx : Nat) (ui : Option String) (tutor : String → String)
        (r : ChatResponse), idx = steps.length →
        lessonFlow steps idx ui tutor = some r → r.next_step = idx) := by
  intro h
  have h2 := h [] 0 none (fun _ => "x")
      { feedback := none, tutor_text := some congratsMsg, media_url := none,
        question := none, next_step := 1, is_lesson_end := true, is_qna_response := false }
      rfl (by decide)
  exact absurd h2 (by decide)

/-- C4 witness: the amended theorem evaluated on an empty lesson at the
terminal cursor 0 (message emitted, cursor moves to 1), and at cursor 2
(request crashes). -/
theorem c4_witness :
    lessonFlow [] 0 none (fun _ => "ok") =
      some { feedback := none, tutor_text := some congratsMsg, media_url := none,
             question := none, next_step := 1, is_lesson_end := true,
             is_qna_response := false } ∧
    lessonFlow [] 2 none (fun _ => "ok") = none := by
  constructor
  · exact (c4_thm [] 0 none (fun _ => "ok")).1 rfl
      (by intro prev hp; simp at hp)
  · exact (c4_thm [] 2 none (fun _ => "ok")).2 (by decide)

/-- C1 (amended): a lesson-flow turn whose current step is a CONTENT step
(and whose preceding step is not a question step) emits one explanation
derived from the step's entire text — all paragraphs at once — and
advances the persisted step_index by 1; the stored cursor is a single
step index with no chunk component. -/
theorem c1_thm (steps : List Step) (idx : Nat) (ui : Option String)
    (tutor : String → String) (s : Step)
    (hs : steps[idx]? = some s) (hc : s.type = some "CONTENT")
    (hq : ∀ prev, steps[idx - 1]? = some prev →
        prev.type ≠ some "QUESTION_MCQ" ∧ prev.type ≠ some "QUESTION_SA") :
    lessonFlow steps idx ui tutor =
      some (finalize { feedback := none, next_step := idx + 1 }
        (some (tutor (contentFmt (s.text.getD ""))))) := by
  have hlt : idx < steps.length := by
    by_contra hge
    rw [List.getElem?_eq_none (Nat.le_of_not_lt hge)] at hs
    cases hs
  have hproc : proceed steps idx tutor none =
      some (finalize { feedback := none, next_step := idx + 1 }
        (some (tutor (contentFmt (s.text.getD ""))))) := by
    rw [proceed_eq steps idx tutor none s hlt hs, if_pos hc]
    rfl
  cases Nat.eq_zero_or_pos idx with
  | inl h0 =>
    subst h0
    rw [lessonFlow_zero]
    exact hproc
  | inr hpos =>
    obtain ⟨prev, hp⟩ : ∃ p, steps[idx - 1]? = some p :=
      ⟨_, List.getElem?_eq_getElem (by omega)⟩
    rw [lessonFlow_pos steps idx ui tutor prev hpos hp,
      if_neg (not_or.mpr (hq prev hp))]
    exact hproc

/-- C1 counterexample: the claim that a CONTENT step with N ≥ 2 paragraph
chunks keeps the learner on the same step after the first turn (a chunk
cursor advancing instead) is false: a two-paragraph CONTENT step is left
behind after a single turn. -/
theorem c1_cex :
    ¬ (∀ (steps : List Step) (idx : Nat) (ui : Option String) (tutor : String → String)
        (s : Step), steps[idx]? = some s → s.type = some "CONTENT" →
        2 ≤ (specParagraphs (s.text.getD "")).length →
        (lessonFlow steps idx ui tutor).map ChatResponse.next_step = some idx) := by
  intro h
  have h2 := h [{ type := some "CONTENT", text := some "A\n\nB" }] 0 none (fun _ => "x")
      { type := some "CONTENT", text := some "A\n\nB" } rfl rfl (by decide)
  have h3 : (lessonFlow [{ type := some "CONTENT", text := some "A\n\nB" }] 0 none
      (fun _ => "x")).map ChatResponse.next_step = some 1 := by decide
  exact absurd (h2.symm.trans h3) (by decide)

/-- C1 witness: the amended theorem evaluated on a two-paragraph CONTENT
step at cursor 0: one turn, whole text, cursor 1. -/
theorem c1_witness :
    lessonFlow [{ type := some "CONTENT", text := some "A\n\nB" }] 0 none (fun _ => "ok") =
      some (finalize { feedback := none, next_step := 1 } (some "ok")) ∧
    2 ≤ (specParagraphs "A\n\nB").length := by
  constructor
  · exact c1_thm [{ type := some "CONTENT", text := some "A\n\nB" }] 0 none (fun _ => "ok")
      { type := some "CONTENT", text := some "A\n\nB" } rfl rfl
      (by
        intro prev hp
        simp only [Nat.zero_sub, List.getElem?_cons_zero, Option.some.injEq] at hp
        subst hp
        exact ⟨by decide, by decide⟩)
  · decide

/-- C2: whenever the previously presented step is a question (MCQ or SA),
the lesson-flow turn grades the learner's answer before anything else; on
an incorrect answer the response is the Socratic hint generated from only
the CONTENT text preceding the question, and the persisted cursor is
rewound to the question's step index; on a correct answer the positive
feedback is attached and the cursor proceeds to step_index + 1. -/
theorem c2_thm (steps : List Step) (idx : Nat) (ui : Option String)
    (tutor : String → String) (prev : Step) (hidx : 0 < idx)
    (hp : steps[idx - 1]? = some prev)
    (ht : prev.type = some "QUESTION_MCQ" ∨ prev.type = some "QUESTION_SA") :
    (isCorrectAnswer tutor ui prev = false →
      lessonFlow steps idx ui tutor =
        some { feedback := none,
               tutor_text := some (tutor (retryFmt (relevantContent steps idx))),
               media_url := none, question := none, next_step := idx - 1,
               is_lesson_end := false, is_qna_response := false }) ∧
    (isCorrectAnswer tutor ui prev = true →
      (lessonFlow steps idx ui tutor).map ChatResponse.next_step = some (idx + 1) ∧
      (lessonFlow steps idx ui tutor).map ChatResponse.feedback = some (some correctMsg)) := by
  rw [lessonFlow_pos steps idx ui tutor prev hidx hp, if_pos ht]
  constructor
  · intro hgr
    rw [if_neg (by simp [hgr])]
  · intro hgr
    rw [if_pos hgr]
    obtain ⟨r, hr, hn, hf⟩ := proceed_fields steps idx tutor (some correctMsg)
    rw [hr]
    constructor
    · simp [hn]
    · simp [hf]

/-- C2 witness: a one-step lesson whose only step is an MCQ with correct
answer "B"; at cursor 1 the turn grades the wrong answer "a", emits the
hint and rewinds the cursor to 0. -/
theorem c2_witness :
    lessonFlow [{ type := some "QUESTION_MCQ", question := some "Q?",
                  options := [("A", "x"), ("B", "y")], correct_answer := some "B" }]
        1 (some "a") (fun _ => "hint") =
      some { feedback := none, tutor_text := some "hint", media_url := none,
             question := none, next_step := 0, is_lesson_end := false,
             is_qna_response := false } :=
  (c2_thm [{ type := some "QUESTION_MCQ", question := some "Q?",
             options := [("A", "x"), ("B", "y")], correct_answer := some "B" }]
      1 (some "a") (fun _ => "hint")
      { type := some "QUESTION_MCQ", question := some "Q?",
        options := [("A", "x"), ("B", "y")], correct_answer := some "B" }
      (by decide) rfl (Or.inl rfl)).1 (by decide)

/-- C3: short-answer grading is exactly the substring check
"CORRECT" ∈ upper(oracle reply); an oracle failure therefore grades as
incorrect (its fallback sentence contains no "CORRECT"), but an oracle
reply of "INCORRECT" grades as CORRECT, because "CORRECT" is a substring
of "INCORRECT" — contradicting the grader prompt's single-word contract
and the claim. -/
theorem c3_thm :
    isCorrectAnswer (fun _ => get_tutor_response none) (some "my answer")
        { type := some "QUESTION_SA", keywords := ["gravity", "mass"] } = false ∧
    isCorrectAnswer (fun _ => "INCORRECT") (some "my answer")
        { type := some "QUESTION_SA", keywords := ["gravity", "mass"] } = true := by
  decide

/-- C7 (amended): a /chat request is accepted if and only if the caller
has an Enrollment row for the lesson's course; the course-creator flag is
ignored, so a non-enrolled creator previewing their own lesson is
rejected with 403 like any other non-enrolled caller. -/
theorem c7_thm (e c : Bool) (steps : List Step) (raw : String) (idx : Nat)
    (ui : Option String) (rt : String) (tutor : String → String) :
    (chat e c steps raw idx ui rt tutor = Except.error 403) ↔ e = false := by
  cases e with
  | false => simp [chat, chatAuthPasses]
  | true =>
    simp only [chat, chatAuthPasses]
    rw [if_neg (by simp)]
    constructor
    · intro h
      by_cases hq : rt = "QNA"
      · rw [if_pos hq] at h
        cases h
      · rw [if_neg hq] at h
        cases hl : lessonFlow steps idx ui tutor with
        | none =>
          rw [hl] at h
          simp at h
        | some r =>
          rw [hl] at h
          cases h
    · intro h
      cases h

/-- C7 counterexample: the claim "accepted iff enrolled or creator" is
false — the creator of the course, not enrolled, is rejected with 403. -/
theorem c7_cex :
    ¬ (∀ (e c : Bool) (steps : List Step) (raw : String) (idx : Nat) (ui : Option String)
        (rt : String) (tutor : String → String),
        (chat e c steps raw idx ui rt tutor ≠ Except.error 403) ↔ (e || c) = true) := by
  intro h
  have h2 := (h false true [] "" 0 none "QNA" (fun _ => "x")).mpr rfl
  exact h2 rfl

/-- C9: a QNA turn never moves the lesson cursor — for every prior cursor
value the /chat route answers with the QNA response and persists
next_step equal to the incoming step index. -/
theorem c9_thm (creator : Bool) (steps : List Step) (raw : String) (idx : Nat)
    (ui : Option String) (tutor : String → String) :
    chat true creator steps raw idx ui "QNA" tutor =
      Except.ok (qnaFlow steps raw idx ui tutor) ∧
    (qnaFlow steps raw idx ui tutor).next_step = idx := by
  constructor
  · simp [chat, chatAuthPasses]
  · unfold qnaFlow
    repeat' split
    all_goals simp [finalize_next_step, qnaBase]

theorem lastUserIdx_none (h : List Msg) (hn : lastUserIdx h = none) :
    ∀ m ∈ h, m.role ≠ "user" := by
  induction h with
  | nil =>
    intro m hm
    cases hm
  | cons a rest ih =>
    unfold lastUserIdx at hn
    cases hr : lastUserIdx rest with
    | some k =>
      rw [hr] at hn
      cases hn
    | none =>
      rw [hr] at hn
      by_cases hu : a.role == "user"
      · rw [if_pos hu] at hn
        cases hn
      · intro m hm
        cases hm with
        | head => exact fun hh => hu (by simp [hh])
        | tail _ hm2 => exact ih hr m hm2

theorem lastUserIdx_spec (h : List Msg) (i : Nat) (hi : lastUserIdx h = some i) :
    ∃ m, h[i]? = some m ∧ m.role = "user" ∧
      ∀ j m2, i < j → h[j]? = some m2 → m2.role ≠ "user" := by
  induction h generalizing i with
  | nil => cases hi
  | cons a rest ih =>
    unfold lastUserIdx at hi
    cases hr : lastUserIdx rest with
    | some k =>
      rw [hr] at hi
      have hk : k + 1 = i := by injection hi
      subst hk
      obtain ⟨m2, hm2, hrole, hafter⟩ := ih k hr
      refine ⟨m2, by simpa using hm2, hrole, ?_⟩
      intro j mj hj hgj
      cases j with
      | zero => omega
      | succ j2 =>
        rw [List.getElem?_cons_succ] at hgj
        exact hafter j2 mj (by omega) hgj
    | none =>
      rw [hr] at hi
      by_cases hu : a.role == "user"
      · rw [if_pos hu] at hi
        have h0 : 0 = i := by injection hi
        subst h0
        refine ⟨a, by simp, by simpa using hu, ?_⟩
        intro j mj hj hgj
        cases j with
        | zero => omega
        | succ j2 =>
          rw [List.getElem?_cons_succ] at hgj
          have hmem : mj ∈ rest := by
            have hlt : j2 < rest.length := by
              by_contra hge
              rw [List.getElem?_eq_none (by omega)] at hgj
              cases hgj
            exact List.getElem?_eq_some.mp hgj |>.elim (fun hh hh2 => by
              rw [← hh2]
              exact List.getElem_mem hh)
          exact lastUserIdx_none rest hr mj hmem
      · rw [if_neg hu] at hi
        cases hi

/-- C6 (amended): delete_last_turn leaves the stored cursor unchanged in
every case; its only effect is on the transcript — it removes the last
user message and everything after it (clearing the history when it holds
no user message), and it errors on an empty history.  It does not undo
cursor movement at any granularity. -/
theorem c6_thm (h : List Msg) (idx : Nat) (r : List Msg × Nat)
    (hr : delete_last_turn h idx = some r) :
    r.2 = idx ∧ (∃ rest, h = r.1 ++ rest) ∧
      ((∃ m, h[r.1.length]? = some m ∧ m.role = "user" ∧
          ∀ j m2, r.1.length < j → h[j]? = some m2 → m2.role ≠ "user") ∨
        (r.1 = [] ∧ ∀ m ∈ h, m.role ≠ "user")) := by
  unfold delete_last_turn at hr
  by_cases he : h.isEmpty
  · rw [if_pos he] at hr
    cases hr
  · rw [if_neg he] at hr
    have hr2 : (truncHist h, idx) = r := Option.some.inj hr
    subst hr2
    cases hl : lastUserIdx h with
    | some i =>
      have htr : truncHist h = h.take i := by
        unfold truncHist
        rw [hl]
      obtain ⟨m, hm, hrole, hafter⟩ := lastUserIdx_spec h i hl
      have hilt : i < h.length := by
        by_contra hge
        rw [List.getElem?_eq_none (by omega)] at hm
        cases hm
      have hlen : (truncHist h, idx).1.length = i := by
        simp only [htr, List.length_take]
        omega
      refine ⟨rfl, ⟨h.drop i, ?_⟩, ?_⟩
      · simp [htr, List.take_append_drop]
      · left
        rw [hlen]
        exact ⟨m, hm, hrole, hafter⟩
    | none =>
      have htr : truncHist h = [] := by
        unfold truncHist
        rw [hl]
      refine ⟨rfl, ⟨h, by simp [htr]⟩, Or.inr ⟨by simp [htr], lastUserIdx_none h hl⟩⟩

/-- C6 counterexample: the claim that step_back decrements a positive
cursor is false — delete_last_turn never modifies current_step_index: at
cursor 2 with a one-message history it returns cursor 2, not 1. -/
theorem c6_cex :
    ¬ (∀ (h : List Msg) (idx : Nat) (r : List Msg × Nat),
        delete_last_turn h idx = some r → r.2 = idx - 1) := by
  intro hcl
  have h2 := hcl [{ role := "user", text := "hi" }] 2 ([], 2) (by decide)
  exact absurd h2 (by decide)

/-- C6 witness: the amended theorem evaluated on a two-message history at
cursor 3: the truncated history is empty and the cursor is still 3. -/
theorem c6_witness :
    delete_last_turn [{ role := "user", text := "hi" }, { role := "model", text := "yo" }] 3 =
      some ([], 3) ∧ (([] : List Msg), (3 : Nat)).2 = 3 :=
  ⟨by decide,
   (c6_thm [{ role := "user", text := "hi" }, { role := "model", text := "yo" }] 3 ([], 3)
     (by decide)).1⟩

/-- C8: every compile-failure mode of a script submission — oracle call
failure, undecodable oracle output, or a decoded value that is not an
object with a "steps" key — leaves the stored lesson (raw script and
parsed StepSequence) unchanged and reports the failure, on both the
update_chapter (edit) and save_chapter (new chapter) paths. -/
theorem c8_thm (stored : LessonRec) (lessons : List LessonRec) (nT nS : String)
    (uploads : List String) (decode : String → Option Json) (t : String) :
    (update_chapter stored nT nS uploads decode none = (stored, false)) ∧
    (decode (cleanOracle t) = none →
      update_chapter stored nT nS uploads decode (some t) = (stored, false)) ∧
    (∀ j, decode (cleanOracle t) = some j → jIsObjWithSteps j = false →
      update_chapter stored nT nS uploads decode (some t) = (stored, false)) ∧
    (save_chapter lessons nT nS uploads decode none = (lessons, false)) ∧
    (decode (cleanOracle t) = none →
      save_chapter lessons nT nS uploads decode (some t) = (lessons, false)) ∧
    (∀ j, decode (cleanOracle t) = some j → jIsObjWithSteps j = false →
      save_chapter lessons nT nS uploads decode (some t) = (lessons, false)) := by
  refine ⟨rfl, ?_, ?_, ?_, ?_, ?_⟩
  · intro hd
    simp [update_chapter, parseLessonScript, hd]
  · intro j hd hsteps
    cases j with
    | obj f =>
      have hnone : objGet f "steps" = none := by
        cases ho : objGet f "steps" with
        | none => rfl
        | some v => simp [jIsObjWithSteps, ho] at hsteps
      simp [update_chapter, parseLessonScript, hd, hnone]
      rfl
    | null => simp [update_chapter, parseLessonScript, hd]
    | bool b => simp [update_chapter, parseLessonScript, hd]
    | num n => simp [update_chapter, parseLessonScript, hd]
    | str s => simp [update_chapter, parseLessonScript, hd]
    | arr xs => simp [update_chapter, parseLessonScript, hd]
  · by_cases hv : nT.isEmpty ∨ nS.isEmpty
    · simp [save_chapter, hv]
    · simp [save_chapter, hv, parseLessonScript]
  · intro hd
    by_cases hv : nT.isEmpty ∨ nS.isEmpty
    · simp [save_chapter, hv]
    · simp [save_chapter, hv, parseLessonScript, hd]
  · intro j hd hsteps
    by_cases hv : nT.isEmpty ∨ nS.isEmpty
    · simp [save_chapter, hv]
    · cases j with
      | obj f =>
        have hnone : objGet f "steps" = none := by
          cases ho : objGet f "steps" with
          | none => rfl
          | some v => simp [jIsObjWithSteps, ho] at hsteps
        simp [save_chapter, hv, parseLessonScript, hd, hnone]
        rfl
      | null => simp [save_chapter, hv, parseLessonScript, hd]
      | bool b => simp [save_chapter, hv, parseLessonScript, hd]
      | num n => simp [save_chapter, hv, parseLessonScript, hd]
      | str s => simp [save_chapter, hv, parseLessonScript, hd]
      | arr xs => simp [save_chapter, hv, parseLessonScript, hd]

/-- C8 witness: an edit whose oracle output does not decode leaves the
stored lesson row exactly as it was and reports failure. -/
theorem c8_witness :
    update_chapter
        { title := "t0", raw_script := "r0",
          parsed_json := Json.obj [("steps", Json.arr [])], chapter_number := 1 }
        "T1" "S1" [] (fun _ => none) (some "not json") =
      ({ title := "t0", raw_script := "r0",
         parsed_json := Json.obj [("steps", Json.arr [])], chapter_number := 1 }, false) :=
  (c8_thm
    { title := "t0", raw_script := "r0",
      parsed_json := Json.obj [("steps", Json.arr [])], chapter_number := 1 }
    [] "T1" "S1" [] (fun _ => none) "not json").2.1 rfl

/-- C5 (amended): the chapter routes assign uploaded files to MEDIA steps
positionally from the single combined upload list, in step order and
regardless of any media type: the k-th MEDIA step receives the k-th
uploaded URL, and a MEDIA step beyond the upload count keeps its original
(absent, i.e. null) media_url; non-MEDIA steps are never touched. -/
theorem c5_thm (xs : List Json) (urls : List String) (i : Nat) :
    (hydrateStepsJ xs urls)[i]? =
      (xs[i]?).map (fun s =>
        if jIsMedia s then
          match urls[(xs.take i).countP jIsMedia]? with
          | some u => setMediaUrlJ s u
          | none => s
        else s) := by
  induction xs generalizing urls i with
  | nil => simp [hydrateStepsJ]
  | cons s rest ih =>
    by_cases hm : jIsMedia s
    · cases urls with
      | nil =>
        cases i with
        | zero => simp [hydrateStepsJ, hm]
        | succ j =>
          rw [show hydrateStepsJ (s :: rest) [] = s :: rest from by simp [hydrateStepsJ, hm]]
          rw [List.getElem?_cons_succ]
          cases hrj : rest[j]? with
          | none => simp [hrj]
          | some tj => simp [hrj]
      | cons u us =>
        cases i with
        | zero => simp [hydrateStepsJ, hm]
        | succ j =>
          rw [show hydrateStepsJ (s :: rest) (u :: us) =
              setMediaUrlJ s u :: hydrateStepsJ rest us from by simp [hydrateStepsJ, hm]]
          rw [List.getElem?_cons_succ, ih us j, List.getElem?_cons_succ]
          simp [List.countP_cons, hm]
    · cases i with
      | zero => simp [hydrateStepsJ, hm]
      | succ j =>
        rw [show hydrateStepsJ (s :: rest) urls = s :: hydrateStepsJ rest urls from by
          simp [hydrateStepsJ, hm]]
        rw [List.getElem?_cons_succ, ih urls j, List.getElem?_cons_succ]
        simp [List.countP_cons, hm]

/-- C5 counterexample: the claim that uploads are consumed separately per
media type is false — with one audio MEDIA step followed by one image
MEDIA step and a single uploaded image, the code hands the image URL to
the audio step (first MEDIA step in order) and leaves the image step
empty, while per-type assignment would fill the image step and null the
audio step. -/
theorem c5_cex :
    ¬ (∀ (xs : List Json) (imgs auds : List String),
        hydrateStepsJ xs (imgs ++ auds) = hydrateStepsSpec xs imgs auds) := by
  intro h
  have hL := h
      [Json.obj [("type", Json.str "MEDIA"), ("media_type", Json.str "audio"),
                 ("alt_text", Json.str "a chime")],
       Json.obj [("type", Json.str "MEDIA"), ("media_type", Json.str "image"),
                 ("alt_text", Json.str "a chart")]]
      ["u.png"] []
  have h1 : ((hydrateStepsJ
      [Json.obj [("type", Json.str "MEDIA"), ("media_type", Json.str "audio"),
                 ("alt_text", Json.str "a chime")],
       Json.obj [("type", Json.str "MEDIA"), ("media_type", Json.str "image"),
                 ("alt_text", Json.str "a chart")]]
      (["u.png"] ++ []))[0]?).bind urlOfStep = some (Json.str "u.png") := rfl
  have h2 : ((hydrateStepsSpec
      [Json.obj [("type", Json.str "MEDIA"), ("media_type", Json.str "audio"),
                 ("alt_text", Json.str "a chime")],
       Json.obj [("type", Json.str "MEDIA"), ("media_type", Json.str "image"),
                 ("alt_text", Json.str "a chart")]]
      ["u.png"] [])[0]?).bind urlOfStep = some Json.null := rfl
  rw [hL] at h1
  exact Json.noConfusion (Option.some.inj (h2.symm.trans h1))


theorem qnaFlow_notag (steps : List Step) (raw : String) (idx : Nat) (ui : Option String)
    (tutor : String → String)
    (hst : ¬ pyStartsWith (pyTrim (qnaAi raw ui tutor)) retrieveTag = true) :
    qnaFlow steps raw idx ui tutor =
      finalize (qnaBase idx) (some (qnaAi raw ui tutor)) := by
  unfold qnaFlow
  rw [if_neg hst]

theorem qnaFlow_tag_none (steps : List Step) (raw : String) (idx : Nat) (ui : Option String)
    (tutor : String → String)
    (hst : pyStartsWith (pyTrim (qnaAi raw ui tutor)) retrieveTag = true)
    (hsp : (pySplit quoteS (qnaAi raw ui tutor))[1]? = none) :
    qnaFlow steps raw idx ui tutor = finalize (qnaBase idx) (some troubleMsg) := by
  unfold qnaFlow
  rw [if_pos hst, hsp]

theorem qnaFlow_tag_some (steps : List Step) (raw : String) (idx : Nat) (ui : Option String)
    (tutor : String → String) (alt : String)
    (hst : pyStartsWith (pyTrim (qnaAi raw ui tutor)) retrieveTag = true)
    (hsp : (pySplit quoteS (qnaAi raw ui tutor))[1]? = some alt) :
    qnaFlow steps raw idx ui tutor =
      (match (steps.find? (fun s => s.type == some "MEDIA" && s.alt_text == some alt)).bind
          Step.media_url with
       | some u =>
         if u.isEmpty then finalize (qnaBase idx) (some apologyMsg)
         else finalize { qnaBase idx with media_url := some u } (some (retrieveOkMsg alt))
       | none => finalize (qnaBase idx) (some apologyMsg)) := by
  unfold qnaFlow
  rw [if_pos hst, hsp]

/-- C10: in the QNA branch, a media_url is attached to the response only
when the RETRIEVE_IMAGE tag carries a quoted alt text and some MEDIA step
of the lesson has exactly that alt_text and a non-empty stored media_url
(the attached URL is that step's); when a quoted alt text is present but
every matching MEDIA step lacks a usable URL the response is the fixed
apology text with no media_url; and a tag with no quoted segment yields
the fixed fallback text with no media_url instead of an unhandled
IndexError. -/
theorem c10_thm (steps : List Step) (raw : String) (idx : Nat) (ui : Option String)
    (tutor : String → String) :
    (∀ u, (qnaFlow steps raw idx ui tutor).media_url = some u →
      ∃ alt s, (pySplit quoteS (qnaAi raw ui tutor))[1]? = some alt ∧
        s ∈ steps ∧ s.type = some "MEDIA" ∧ s.alt_text = some alt ∧
        s.media_url = some u ∧ u ≠ "") ∧
    (∀ alt, (pySplit quoteS (qnaAi raw ui tutor))[1]? = some alt →
      pyStartsWith (pyTrim (qnaAi raw ui tutor)) retrieveTag = true →
      (∀ s, s ∈ steps → s.type = some "MEDIA" → s.alt_text = some alt →
        truthy s.media_url = false) →
      qnaFlow steps raw idx ui tutor =
        { feedback := none, tutor_text := some apologyMsg, media_url := none,
          question := none, next_step := idx, is_lesson_end := false,
          is_qna_response := true }) ∧
    (pyStartsWith (pyTrim (qnaAi raw ui tutor)) retrieveTag = true →
      (pySplit quoteS (qnaAi raw ui tutor))[1]? = none →
      qnaFlow steps raw idx ui tutor =
        { feedback := none, tutor_text := some troubleMsg, media_url := none,
          question := none, next_step := idx, is_lesson_end := false,
          is_qna_response := true }) := by
  refine ⟨?_, ?_, ?_⟩
  · intro u hu
    by_cases hst : pyStartsWith (pyTrim (qnaAi raw ui tutor)) retrieveTag = true
    · cases hsp : (pySplit quoteS (qnaAi raw ui tutor))[1]? with
      | none =>
        rw [qnaFlow_tag_none steps raw idx ui tutor hst hsp, finalize_media_url] at hu
        simp [qnaBase] at hu
      | some alt =>
        rw [qnaFlow_tag_some steps raw idx ui tutor alt hst hsp] at hu
        cases hf : (steps.find? (fun s => s.type == some "MEDIA" &&
            s.alt_text == some alt)).bind Step.media_url with
        | none => simp [hf, finalize_media_url, qnaBase] at hu
        | some u2 =>
          by_cases hemp : u2.isEmpty = true
          · simp [hf, hemp, finalize_media_url, qnaBase] at hu
          · simp [hf, hemp, finalize_media_url, qnaBase] at hu
            obtain ⟨s, hfind, hsurl⟩ : ∃ s, steps.find? (fun s => s.type == some "MEDIA" &&
                s.alt_text == some alt) = some s ∧ s.media_url = some u2 := by
              cases hff : steps.find? (fun s => s.type == some "MEDIA" &&
                  s.alt_text == some alt) with
              | none =>
                rw [hff] at hf
                cases hf
              | some s =>
                rw [hff] at hf
                exact ⟨s, rfl, hf⟩
            have hpred := List.find?_some hfind
            have hmem := List.mem_of_find?_eq_some hfind
            simp only [Bool.and_eq_true, beq_iff_eq] at hpred
            refine ⟨alt, s, rfl, hmem, hpred.1, hpred.2, ?_, ?_⟩
            · rw [hsurl, hu]
            · intro hh
              rw [← hu] at hh
              exact hemp (by rw [hh]; rfl)
    · rw [qnaFlow_notag steps raw idx ui tutor hst, finalize_media_url] at hu
      simp [qnaBase] at hu
  · intro alt hsp hst hall
    rw [qnaFlow_tag_some steps raw idx ui tutor alt hst hsp]
    cases hfb : (steps.find? (fun s => s.type == some "MEDIA" &&
        s.alt_text == some alt)).bind Step.media_url with
    | none => rfl
    | some u =>
      obtain ⟨s, hfind, hsurl⟩ : ∃ s, steps.find? (fun s => s.type == some "MEDIA" &&
          s.alt_text == some alt) = some s ∧ s.media_url = some u := by
        cases hff : steps.find? (fun s => s.type == some "MEDIA" &&
            s.alt_text == some alt) with
        | none =>
          rw [hff] at hfb
          cases hfb
        | some s =>
          rw [hff] at hfb
          exact ⟨s, rfl, hfb⟩
      have hpred := List.find?_some hfind
      have hmem := List.mem_of_find?_eq_some hfind
      simp only [Bool.and_eq_true, beq_iff_eq] at hpred
      have hb := hall s hmem hpred.1 hpred.2
      rw [hsurl] at hb
      have hemp : u.isEmpty = true := by simpa [truthy] using hb
      show (if u.isEmpty = true then finalize (qnaBase idx) (some apologyMsg)
            else finalize { qnaBase idx with media_url := some u }
              (some (retrieveOkMsg alt))) =
        { feedback := none, tutor_text := some apologyMsg, media_url := none,
          question := none, next_step := idx, is_lesson_end := false,
          is_qna_response := true }
      rw [if_pos hemp]
      rfl
  · intro hst hsp
    rw [qnaFlow_tag_none steps raw idx ui tutor hst hsp]
    rfl

/-- C10 witness: a lesson with one MEDIA step whose alt text matches the
tag quoted by the oracle reply and whose media_url is stored: the QNA
response attaches exactly that URL. -/
theorem c10_witness :
    ∃ alt s,
      (pySplit quoteS (qnaAi "script" (some "show me")
        (fun _ => "[RETRIEVE_IMAGE: " ++ quoteS ++ "a red capacitor" ++ quoteS ++ "]")))[1]? =
          some alt ∧
      s ∈ ([{ type := some "MEDIA", alt_text := some "a red capacitor",
              media_url := some "x.png" }] : List Step) ∧
      s.type = some "MEDIA" ∧ s.alt_text = some alt ∧
      s.media_url = some "x.png" ∧ "x.png" ≠ "" :=
  (c10_thm [{ type := some "MEDIA", alt_text := some "a red capacitor",
              media_url := some "x.png" }] "script" 5 (some "show me")
    (fun _ => "[RETRIEVE_IMAGE: " ++ quoteS ++ "a red capacitor" ++ quoteS ++ "]")).1
    "x.png" (by decide)
